import Mathlib

/-!
Verification of the sign-in form component (`src/page/auth/Sign-in.tsx`) of the
project-management client.  The component collects an email and a password,
validates them with a zod schema (`formSchema`, lines 38-45), guards submission
with the mutation's busy flag (`onSubmit`, lines 55-58), and on the mutation's
outcome either navigates (`onSuccess`, lines 59-64) or raises a toast
notification (`onError`, lines 65-71).  The definitions below are a shallow
embedding of that component; the theorems settle the specified properties.
-/

namespace SignIn

/-- Value of a hexadecimal digit character, as used by the percent-escape
decoder; `none` when the character is not a hex digit. -/
def hexVal (c : Char) : Option Nat :=
  if '0' ≤ c ∧ c ≤ '9' then some (c.toNat - '0'.toNat)
  else if 'a' ≤ c ∧ c ≤ 'f' then some (c.toNat - 'a'.toNat + 10)
  else if 'A' ≤ c ∧ c ≤ 'F' then some (c.toNat - 'A'.toNat + 10)
  else none

/-- Character-level model of the ECMAScript `decodeURIComponent` builtin used
at line 62: each `%XX` escape (two hex digits) is replaced by the character
with code `XX`, other characters pass through unchanged, and a malformed
escape makes the call throw, modelled as `none`. -/
def decodeChars : List Char → Option (List Char)
  | [] => some []
  | c :: rest =>
    if c = '%' then
      match rest with
      | c1 :: c2 :: rest2 =>
        match hexVal c1, hexVal c2 with
        | some hi, some lo => (decodeChars rest2).map (fun ds => Char.ofNat (16 * hi + lo) :: ds)
        | _, _ => none
      | _ => none
    else (decodeChars rest).map (fun ds => c :: ds)

/-- `decodeURIComponent` on strings: `none` models a thrown `URIError`. -/
def decodeURIComponent (s : String) : Option String :=
  (decodeChars s.data).map String.mk

/-- JavaScript `a || b` for a nullable string `a`: `null` and the empty string
are falsy, any other string is truthy. -/
def jsOr (a : Option String) (b : String) : String :=
  match a with
  | some s => if s = "" then b else s
  | none => b

/-- JavaScript template-literal interpolation of a possibly-`undefined` string
field: a missing value is rendered as the text `undefined`. -/
def templateStr : Option String → String
  | some s => s
  | none => "undefined"

/-- The user object of a successful login response; `currentWorkspace` is
`none` when the backend omits the field. -/
structure User where
  currentWorkspace : Option String
deriving DecidableEq

/-- A successful login response body (`data` in the `onSuccess` callback). -/
structure LoginResponse where
  user : User
deriving DecidableEq

/-- The navigation target computed by the `onSuccess` callback (lines 59-63):
`const decodedUrl = returnUrl ? decodeURIComponent(returnUrl) : null;`
`navigate(decodedUrl || "/workspace/" + user.currentWorkspace)` (the default
is written as a template literal in the source).  The outer `Option` is the
exception level: `none` means `decodeURIComponent` threw and no navigation
happened; `some t` means the router was called with target `t`.  `returnUrl`
is `searchParams.get("returnUrl")` from line 32, `none` when the query
parameter is absent. -/
def navTargetOnSuccess (returnUrl : Option String) (data : LoginResponse) : Option String :=
  let decodedUrl : Option (Option String) :=
    match returnUrl with
    | some r => if r = "" then some none else (decodeURIComponent r).map some
    | none => some none
  decodedUrl.map fun du => jsOr du ("/workspace/" ++ templateStr data.user.currentWorkspace)

/-- The validated form values handed to `onSubmit` and sent as the request
body by `mutate(values, ...)` (line 58). -/
structure FormValues where
  email : String
  password : String
deriving DecidableEq

/-- The mutation state visible to `onSubmit`: the react-query busy flag
`isPending` (line 34) and the trace of request bodies issued so far. -/
structure SubmitState where
  isPending : Bool
  requests : List FormValues
deriving DecidableEq

/-- The `onSubmit` handler, lines 55-58: `if (isPending) return;` then
`mutate(values, ...)`, which marks the mutation pending and issues one
credential-verification request with body `values`. -/
def onSubmit (s : SubmitState) (values : FormValues) : SubmitState :=
  if s.isPending then s
  else { isPending := true, requests := s.requests ++ [values] }

/-- JavaScript string whitespace as relevant to `String.prototype.trim`
(ASCII fragment: space, tab, line feed, carriage return, vertical tab and
form feed). -/
def isJsWhitespace (c : Char) : Bool :=
  c = ' ' || c = '\t' || c = '\n' || c = '\r' || c = '\x0b' || c = '\x0c'

/-- `String.prototype.trim` on character lists: drop whitespace from both
ends. -/
def trimChars (cs : List Char) : List Char :=
  (((cs.dropWhile isJsWhitespace).reverse).dropWhile isJsWhitespace).reverse

/-- `String.prototype.trim`, the transform applied by zod's `.trim()` check
(lines 39 and 42). -/
def jsTrim (s : String) : String :=
  ⟨trimChars s.data⟩

/-- Split a character list on every occurrence of the separator character;
always returns at least one (possibly empty) chunk. -/
def splitOnChar (sep : Char) : List Char → List (List Char)
  | [] => [[]]
  | c :: rest =>
    let r := splitOnChar sep rest
    if c = sep then [] :: r
    else
      match r with
      | h :: t => (c :: h) :: t
      | [] => [[c]]

/-- Character class of the final local-part character of the zod email
pattern: alphanumeric, underscore, plus or hyphen. -/
def isLocalTailChar (c : Char) : Bool :=
  c.isAlphanum || c = '_' || c = '+' || c = '-'

/-- Character class of the non-final local-part characters: additionally the
apostrophe (code 39) and the dot. -/
def isLocalChar (c : Char) : Bool :=
  isLocalTailChar c || c = Char.ofNat 39 || c = '.'

/-- Character class of a domain label after its first character. -/
def isDomainChar (c : Char) : Bool :=
  c.isAlphanum || c = '-'

/-- Local part of the email pattern: a possibly empty run of local characters
followed by one local tail character. -/
def localOk : List Char → Bool
  | [] => false
  | [c] => isLocalTailChar c
  | c :: rest => isLocalChar c && localOk rest

/-- A domain label: one alphanumeric character then domain characters. -/
def labelOk : List Char → Bool
  | [] => false
  | c :: rest => c.isAlphanum && rest.all isDomainChar

/-- Top-level domain: at least two letters. -/
def isTld (cs : List Char) : Bool :=
  decide (2 ≤ cs.length) && cs.all Char.isAlpha

/-- Domain of the email pattern: one or more dot-terminated labels followed by
a top-level domain. -/
def domainOk (d : List Char) : Bool :=
  match (splitOnChar '.' d).reverse with
  | tld :: labels => !labels.isEmpty && isTld tld && labels.all labelOk
  | [] => false

/-- Two consecutive dots anywhere in the character list. -/
def hasDoubleDot : List Char → Bool
  | '.' :: '.' :: _ => true
  | _ :: rest => hasDoubleDot rest
  | [] => false

/-- A leading dot. -/
def startsWithDot : List Char → Bool
  | '.' :: _ => true
  | _ => false

/-- The zod `.email()` check of `formSchema` (line 39), i.e. zod's email
regular expression: no leading dot, no two consecutive dots anywhere, a local
part, one at sign, and a labelled domain ending in a top-level domain of at
least two letters (case-insensitive, so both letter cases are accepted). -/
def emailCheck (s : String) : Bool :=
  !startsWithDot s.data &&
  !hasDoubleDot s.data &&
  match splitOnChar '@' s.data with
  | [localPart, domain] => localOk localPart && domainOk domain
  | _ => false

/-- Per-field validation issues produced by the zod resolver; each list holds
the issue messages attached to that field, in check order. -/
structure FieldIssues where
  emailErrors : List String
  passwordErrors : List String
deriving DecidableEq

/-- Issues of the email field of `formSchema` (lines 39-41):
`z.string().trim().email("Invalid email address").min(1, ...)`.  The value is
trimmed first; the email check and the min-length check then run in order on
the trimmed value, each failing check contributing its message. -/
def validateEmail (raw : String) : List String :=
  (if emailCheck (jsTrim raw) then [] else ["Invalid email address"]) ++
  (if 1 ≤ (jsTrim raw).length then [] else ["Workspace name is required"])

/-- Issues of the password field of `formSchema` (lines 42-44):
`z.string().trim().min(1, ...)`. -/
def validatePassword (raw : String) : List String :=
  if 1 ≤ (jsTrim raw).length then [] else ["Password is required"]

/-- The zod resolver applied to the raw field values: success yields the
transformed (trimmed) values, failure yields the per-field issues. -/
def parseForm (email password : String) : Except FieldIssues FormValues :=
  if validateEmail email = [] ∧ validatePassword password = [] then
    .ok ⟨jsTrim email, jsTrim password⟩
  else
    .error ⟨validateEmail email, validatePassword password⟩

/-- `form.handleSubmit(onSubmit)` (line 95): validation runs first; on success
the validated values flow into `onSubmit`, on failure the submission handler
is never called and the issues become the inline field errors. -/
def handleSubmit (s : SubmitState) (email password : String) :
    SubmitState × Option FieldIssues :=
  match parseForm email password with
  | .ok v => (onSubmit s v, none)
  | .error issues => (s, some issues)

/-- Cause of a rejected credential-verification request, as distinguished by
the environment (the component itself never inspects it). -/
inductive ErrorCause
  | network
  | credentials
  | server
deriving DecidableEq

/-- The rejection value delivered to the `onError` callback: some cause and a
human-readable `message` field. -/
structure LoginError where
  cause : ErrorCause
  message : String
deriving DecidableEq

/-- A toast notification as raised by the `toast` call (lines 66-70). -/
structure Toast where
  title : String
  description : String
  variant : String
deriving DecidableEq

/-- The react-hook-form state at the moment the mutation settles: current
field values and inline per-field error texts. -/
structure FormState where
  email : String
  password : String
  emailErrors : List String
  passwordErrors : List String
deriving DecidableEq

/-- The `onError` callback, lines 65-71: it raises one destructive toast whose
description is the error's message, and touches nothing else; the form state
is returned unchanged. -/
def onError (fs : FormState) (err : LoginError) : FormState × Toast :=
  (fs, { title := "Error", description := err.message, variant := "destructive" })

/-! ### Helper lemmas -/

/-- Unfolding of the decoder at a percent escape with two remaining
characters. -/
theorem decodeChars_pct (c1 c2 : Char) (rest : List Char) :
    decodeChars ('%' :: c1 :: c2 :: rest) =
      match hexVal c1, hexVal c2 with
      | some hi, some lo =>
        (decodeChars rest).map (fun ds => Char.ofNat (16 * hi + lo) :: ds)
      | _, _ => none := rfl

/-- A trailing percent sign is a malformed escape. -/
theorem decodeChars_pct_nil : decodeChars ['%'] = none := rfl

/-- A percent sign followed by a single character is a malformed escape. -/
theorem decodeChars_pct_one (c1 : Char) : decodeChars ['%', c1] = none := rfl

/-- Unfolding of the decoder at an ordinary character. -/
theorem decodeChars_other (c : Char) (rest : List Char) (hc : c ≠ '%') :
    decodeChars (c :: rest) = (decodeChars rest).map (fun ds => c :: ds) := by
  rw [decodeChars.eq_def]
  simp only []
  rw [if_neg hc]

/-- Decoding a nonempty character list yields a nonempty result: every step of
the decoder consumes at least one input character and emits exactly one. -/
theorem decodeChars_ne_nil (c : Char) (rest ds : List Char)
    (h : decodeChars (c :: rest) = some ds) : ds ≠ [] := by
  intro hds
  subst hds
  by_cases hc : c = '%'
  · subst hc
    cases rest with
    | nil => rw [decodeChars_pct_nil] at h; exact Option.noConfusion h
    | cons c1 rest1 =>
      cases rest1 with
      | nil => rw [decodeChars_pct_one] at h; exact Option.noConfusion h
      | cons c2 rest2 =>
        rw [decodeChars_pct] at h
        rcases h1 : hexVal c1 with _ | hi
        · simp [h1] at h
        · rcases h2 : hexVal c2 with _ | lo
          · simp [h1, h2] at h
          · simp [h1, h2] at h
  · rw [decodeChars_other c rest hc, Option.map_eq_some'] at h
    obtain ⟨a, -, ha⟩ := h
    exact List.cons_ne_nil _ _ ha

/-- Decoding a nonempty string yields a nonempty string. -/
theorem decodeURIComponent_ne_empty (r d : String) (hr : r ≠ "")
    (hd : decodeURIComponent r = some d) : d ≠ "" := by
  unfold decodeURIComponent at hd
  rw [Option.map_eq_some'] at hd
  obtain ⟨ds, hds, rfl⟩ := hd
  have hrd : r.data ≠ [] := by
    intro hnil
    exact hr (String.ext (hnil.trans (rfl : ("" : String).data = []).symm))
  obtain ⟨c, rest, hcs⟩ := List.exists_cons_of_ne_nil hrd
  rw [hcs] at hds
  intro hd0
  exact decodeChars_ne_nil c rest ds hds (congrArg String.data hd0)

/-! ### Claims -/

/-- Claim C1: for every successful login response whose user object carries a
current-workspace identifier `w`, if no `returnUrl` query parameter is present
then the navigation target passed to the router is exactly the string
`/workspace/` followed by `w`. -/
theorem signIn_c1 (w : String) :
    navTargetOnSuccess none ⟨⟨some w⟩⟩ = some ("/workspace/" ++ w) := rfl

/-- Claim C2: for every successful login response, if a non-empty `returnUrl`
query parameter is present then the navigation target is the percent-decoding
of that value, and the user record's current-workspace identifier is not used
(the response `data` is arbitrary and does not appear in the target). -/
theorem signIn_c2 (r d : String) (data : LoginResponse) (hr : r ≠ "")
    (hd : decodeURIComponent r = some d) :
    navTargetOnSuccess (some r) data = some d := by
  have hne : d ≠ "" := decodeURIComponent_ne_empty r d hr hd
  show ((if r = "" then some none else (decodeURIComponent r).map some).map
    fun du => jsOr du ("/workspace/" ++ templateStr data.user.currentWorkspace)) = some d
  rw [if_neg hr, hd]
  simp [jsOr, hne]

/-- Witness for C2 at `returnUrl=%2Fprojects%2F5` and a response carrying
workspace `w1`: the target is `/projects/5`. -/
theorem signIn_c2_witness :
    ("%2Fprojects%2F5" : String) ≠ "" ∧
    decodeURIComponent "%2Fprojects%2F5" = some "/projects/5" ∧
    navTargetOnSuccess (some "%2Fprojects%2F5") ⟨⟨some "w1"⟩⟩ = some "/projects/5" :=
  ⟨by decide, rfl,
    signIn_c2 "%2Fprojects%2F5" "/projects/5" ⟨⟨some "w1"⟩⟩ (by decide) rfl⟩

/-- Claim C3: while a credential-verification request is pending (the busy
flag is set), invoking submit again issues no new request and changes nothing:
the submission step is a no-op. -/
theorem signIn_c3 (s : SubmitState) (v : FormValues) (h : s.isPending = true) :
    onSubmit s v = s := by
  simp [onSubmit, h]

/-- Witness for C3: submitting in a concrete pending state with no requests
recorded leaves the state unchanged. -/
theorem signIn_c3_witness :
    (⟨true, []⟩ : SubmitState).isPending = true ∧
    onSubmit ⟨true, []⟩ ⟨"a@b.co", "secret"⟩ = ⟨true, []⟩ :=
  ⟨rfl, signIn_c3 ⟨true, []⟩ ⟨"a@b.co", "secret"⟩ rfl⟩

/-- Claim C4: whenever the (trimmed) email is empty or fails the email-syntax
check, or the password is empty after trimming, validation fails before
submission: the mutation state is untouched (no request is issued) and the
failing field carries at least one inline error message. -/
theorem signIn_c4 (s : SubmitState) (email password : String)
    (h : jsTrim email = "" ∨ emailCheck (jsTrim email) = false ∨ jsTrim password = "") :
    (handleSubmit s email password).1 = s ∧
    ∃ issues, (handleSubmit s email password).2 = some issues ∧
      ((jsTrim email = "" ∨ emailCheck (jsTrim email) = false) → issues.emailErrors ≠ []) ∧
      (jsTrim password = "" → issues.passwordErrors ≠ []) := by
  have hemail : (jsTrim email = "" ∨ emailCheck (jsTrim email) = false) →
      validateEmail email ≠ [] := by
    intro hE
    have hf : emailCheck (jsTrim email) = false := by
      rcases hE with hE | hE
      · rw [hE]; decide
      · exact hE
    unfold validateEmail
    rw [hf]
    simp
  have hpw : jsTrim password = "" → validatePassword password ≠ [] := by
    intro hP
    unfold validatePassword
    rw [hP]
    decide
  have hne : ¬(validateEmail email = [] ∧ validatePassword password = []) := by
    rintro ⟨h1, h2⟩
    rcases h with hE | hE | hP
    · exact hemail (Or.inl hE) h1
    · exact hemail (Or.inr hE) h1
    · exact hpw hP h2
  have herr : parseForm email password =
      .error ⟨validateEmail email, validatePassword password⟩ := by
    unfold parseForm
    rw [if_neg hne]
  refine ⟨?_, ⟨validateEmail email, validatePassword password⟩, ?_, hemail, hpw⟩
  · simp [handleSubmit, herr]
  · simp [handleSubmit, herr]

/-- Witness for C4: both fields empty blocks submission, leaves the mutation
state untouched and attaches inline errors. -/
theorem signIn_c4_witness :
    (jsTrim "" = "" ∨ emailCheck (jsTrim "") = false ∨ jsTrim "" = "") ∧
    ((handleSubmit ⟨false, []⟩ "" "").1 = ⟨false, []⟩ ∧
      ∃ issues, (handleSubmit ⟨false, []⟩ "" "").2 = some issues ∧
        ((jsTrim "" = "" ∨ emailCheck (jsTrim "") = false) → issues.emailErrors ≠ []) ∧
        (jsTrim "" = "" → issues.passwordErrors ≠ [])) :=
  ⟨Or.inl (by decide), signIn_c4 ⟨false, []⟩ "" "" (Or.inl (by decide))⟩

/-- Claim C5: every rejected request takes the same single notification path
regardless of its cause, and the notification text is exactly the error's
`message` field, in a destructive toast titled `Error`. -/
theorem signIn_c5 (fs : FormState) (ca cb : ErrorCause) (m : String) :
    onError fs ⟨ca, m⟩ = onError fs ⟨cb, m⟩ ∧
    (onError fs ⟨ca, m⟩).2.description = m ∧
    (onError fs ⟨ca, m⟩).2 = ⟨"Error", m, "destructive"⟩ :=
  ⟨rfl, rfl, rfl⟩

/-- Claim C6: the error handler preserves the form state: the email and
password values after the failure handler equal their values at submission
time, and the whole form record is unchanged. -/
theorem signIn_c6 (fs : FormState) (err : LoginError) :
    (onError fs err).1 = fs ∧
    (onError fs err).1.email = fs.email ∧
    (onError fs err).1.password = fs.password :=
  ⟨rfl, rfl, rfl⟩

/-- Counterexample to claim C7: on a rejected request with message
`Invalid credentials` against a form with no inline errors, the error handler
leaves both inline per-field error lists empty — the remote failure is not
reported as field-level inline text on the form. -/
theorem signIn_c7_counterexample :
    ¬((onError ⟨"a@b.co", "secret", [], []⟩
        ⟨ErrorCause.credentials, "Invalid credentials"⟩).1.emailErrors ≠ [] ∨
      (onError ⟨"a@b.co", "secret", [], []⟩
        ⟨ErrorCause.credentials, "Invalid credentials"⟩).1.passwordErrors ≠ []) := by
  decide

/-- Amended claim C7: when the authentication request resolves with failure,
the form is redisplayed with its state (values and inline errors) unchanged,
and the failure is surfaced as a destructive toast notification carrying the
error's message — not as field-level inline text. -/
theorem signIn_c7_amended (fs : FormState) (err : LoginError) :
    onError fs err = (fs, ⟨"Error", err.message, "destructive"⟩) := rfl

/-- Claim C8: for every submitted form record that passes validation, the
values sent in the credential-verification request body are the
whitespace-trimmed email and whitespace-trimmed password. -/
theorem signIn_c8 (s : SubmitState) (email password : String) (v : FormValues)
    (hp : s.isPending = false)
    (hv : parseForm email password = .ok v) :
    v = ⟨jsTrim email, jsTrim password⟩ ∧
    (handleSubmit s email password).1.requests =
      s.requests ++ [⟨jsTrim email, jsTrim password⟩] := by
  have hv' : v = ⟨jsTrim email, jsTrim password⟩ := by
    unfold parseForm at hv
    split at hv
    · injection hv with h0
      exact h0.symm
    · exact Except.noConfusion hv
  subst hv'
  refine ⟨rfl, ?_⟩
  simp [handleSubmit, hv, onSubmit, hp]

/-- Witness for C8: submitting padded credentials sends their trimmed forms
as the request body. -/
theorem signIn_c8_witness :
    (⟨false, []⟩ : SubmitState).isPending = false ∧
    parseForm " a@b.co " " secret " = .ok ⟨"a@b.co", "secret"⟩ ∧
    ((⟨"a@b.co", "secret"⟩ : FormValues) = ⟨jsTrim " a@b.co ", jsTrim " secret "⟩ ∧
      (handleSubmit ⟨false, []⟩ " a@b.co " " secret ").1.requests =
        [] ++ [⟨jsTrim " a@b.co ", jsTrim " secret "⟩]) :=
  ⟨rfl, rfl, signIn_c8 ⟨false, []⟩ " a@b.co " " secret " ⟨"a@b.co", "secret"⟩ rfl rfl⟩

/-- Claim C9: a `returnUrl` query parameter equal to the empty string is
treated as absent: the navigation target falls back to the default workspace
route, exactly as in the no-parameter case. -/
theorem signIn_c9 (w : String) :
    navTargetOnSuccess (some "") ⟨⟨some w⟩⟩ = some ("/workspace/" ++ w) ∧
    navTargetOnSuccess (some "") ⟨⟨some w⟩⟩ = navTargetOnSuccess none ⟨⟨some w⟩⟩ :=
  ⟨rfl, rfl⟩

/-- Claim C10: with no `returnUrl`, a successful response whose user object
lacks a `currentWorkspace` field still navigates, to `/workspace/undefined`:
the missing field is interpolated as the text `undefined`. -/
theorem signIn_c10 (data : LoginResponse) (h : data.user.currentWorkspace = none) :
    navTargetOnSuccess none data = some "/workspace/undefined" := by
  have h0 : navTargetOnSuccess none data
      = some ("/workspace/" ++ templateStr data.user.currentWorkspace) := rfl
  rw [h0, h]
  decide

/-- Witness for C10: the concrete response with a missing workspace field
navigates to `/workspace/undefined`. -/
theorem signIn_c10_witness :
    (⟨⟨none⟩⟩ : LoginResponse).user.currentWorkspace = none ∧
    navTargetOnSuccess none ⟨⟨none⟩⟩ = some "/workspace/undefined" :=
  ⟨rfl, signIn_c10 ⟨⟨none⟩⟩ rfl⟩

end SignIn
